import Mathlib

/-!
Verification of the model-lifecycle and inference core of the
handwritten-digit classification backend.

The Python source is shallowly embedded:

* `backend/app/shared/ml/svm_service.py` — module-level model cache
  (`_model`, `_scaler`), training-status string, background-training
  scheduling, disk persistence.  The mutable module state is embedded as the
  `Registry` structure threaded explicitly through the operations; pickled
  artifacts are represented by numeric identifiers (`Option ℕ` slots:
  `none` = Python `None` / missing file, `some i` = a concrete object).
* `backend/app/shared/ml/preprocessing.py` — the image normalizer, embedded
  over rational-valued grayscale rasters (`Img`).  The two PIL resampling
  calls and the PIL smoothing filter are external library code and appear as
  function parameters; theorems state the library facts they rely on
  (fixed output size, uint8 value range, constant images map to constant
  images) as explicit hypotheses.
* `backend/app/module/predict/services/ml_inference_service.py` and
  `predict_service.py` — inference wrapper and the end-to-end prediction
  service.  sklearn's fitted scaler/classifier are external and appear as
  the `SvmFns` parameter.

Python exceptions are embedded as `Except PyError` results; `PyError`
records the exception class name and message.  Functions whose Python
counterparts catch every exception internally (e.g. `_load_model`,
`_save_model`) are embedded as total functions.
-/

deriving instance DecidableEq for Except

namespace DigitOCR

/-- A raised Python exception: class name (e.g. "ValueError") and message. -/
structure PyError where
  typ : String
  msg : String
deriving DecidableEq, Repr

/-- The training-status strings of `svm_service.py`
(`not_started, in_progress, completed, failed`). -/
inductive TrainingStatus where
  | notStarted
  | inProgress
  | completed
  | failed
deriving DecidableEq, Repr

/-- The module-level mutable state of `svm_service.py`: `_training_status`,
the in-memory `_model` / `_scaler` slots and the pickled copies on disk
(`MODEL_FILE` / `SCALER_FILE`).  Artifacts are identified by numbers; `none`
is Python `None` (or an absent file). -/
structure Registry where
  status : TrainingStatus
  model : Option ℕ
  scaler : Option ℕ
  diskModel : Option ℕ
  diskScaler : Option ℕ
deriving DecidableEq, Repr

/-- `SVMService.start_background_training` (svm_service.py lines 77-121),
synchronous part: under `_training_status_lock`, return unchanged if the
status is `in_progress` or `completed`; otherwise set it to `in_progress`
and start one background thread.  The second component counts the training
runs scheduled by this call. -/
def start_background_training (r : Registry) : Registry × ℕ :=
  if r.status = .inProgress then (r, 0)
  else if r.status = .completed then (r, 0)
  else ({ r with status := .inProgress }, 1)

/-- `SVMService._train_model` (svm_service.py lines 184-268), abstracted over
the actual MNIST download and sklearn fitting: on success it assigns a fresh
fitted scaler and then a fresh fitted model to the module slots; on any
failure it raises `ValueError("Failed to train SVM model: ...")`.
`fitOk` stands for "no exception occurred during dataset
acquisition/fitting"; `mid`/`sid` identify the freshly built artifacts. -/
def train_model (mid sid : ℕ) (fitOk : Bool) (r : Registry) :
    Except PyError Registry :=
  if fitOk then .ok { r with scaler := some sid, model := some mid }
  else .error ⟨"ValueError", "Failed to train SVM model"⟩

/-- Where (if anywhere) an exception strikes inside the `try` block of
`SVMService._save_model` (svm_service.py lines 168-182).  The body runs, in
order: `os.makedirs`, `open(MODEL_FILE, 'wb')` (which truncates the file)
and `pickle.dump(_model)`, then `open(SCALER_FILE, 'wb')` and
`pickle.dump(_scaler)` — the two writes are not atomic, so each failure
point leaves the disk in a different state. -/
inductive SaveOutcome where
  | failBeforeModel
  | failDuringModelDump
  | failOpeningScaler
  | failDuringScalerDump
  | success
deriving DecidableEq, Repr

/-- `SVMService._save_model` (svm_service.py lines 155-182): returns silently
when the model or scaler slot is `None`; otherwise pickles the model and then
the scaler to disk with truncating `'wb'` opens.  Any exception is caught
inside the function and only logged, so it never raises — but depending on
where the exception strikes, the model file may be left truncated/corrupt
(`none`) or freshly written while the scaler file is stale or corrupt. -/
def save_model (outcome : SaveOutcome) (r : Registry) : Registry :=
  if r.model = none then r
  else if r.scaler = none then r
  else
    match outcome with
    | .failBeforeModel => r
    | .failDuringModelDump => { r with diskModel := none }
    | .failOpeningScaler => { r with diskModel := r.model }
    | .failDuringScalerDump =>
      { r with diskModel := r.model, diskScaler := none }
    | .success => { r with diskModel := r.model, diskScaler := r.scaler }

/-- `train_in_background` (svm_service.py lines 95-116), the body of the
background training thread: run `_train_model`, then `_save_model`, then set
the status to `completed`; if `_train_model` raised, `_save_model` is never
reached and the status is set to `failed` with `_model`/`_scaler` reset to
`None`. -/
def train_in_background (mid sid : ℕ) (fitOk : Bool) (save : SaveOutcome)
    (r : Registry) : Registry :=
  match train_model mid sid fitOk r with
  | .ok r1 =>
    let r2 := save_model save r1
    { r2 with status := .completed }
  | .error _ => { r with status := .failed, model := none, scaler := none }

/-- `SVMService._load_model` (svm_service.py lines 123-153): if both files
exist, unpickle the model into `_model` and then the scaler into `_scaler`
and return `True`; if either file is missing return `False`; any exception
(corrupt pickle, modelled as `none` content) is caught and `False` is
returned — note that when the model file unpickles but the scaler file is
corrupt, the assignment to `_model` has already happened.  `mf`/`sf` say
whether the two files exist, `mp`/`sp` are their unpickled contents
(`none` = `pickle.load` raises). -/
def load_model (mf sf : Bool) (mp sp : Option ℕ) (r : Registry) :
    Registry × Bool :=
  if mf ∧ sf then
    match mp with
    | none => (r, false)
    | some m =>
      let r1 := { r with model := some m }
      match sp with
      | none => (r1, false)
      | some s => ({ r1 with scaler := some s }, true)
  else (r, false)

/-- `SVMService.__init__` (svm_service.py lines 45-62): when `_model` is
`None` (double-checked under `_model_lock`), try `_load_model()`; on success
set the status to `completed`, otherwise set it to `not_started`. -/
def init_service (mf sf : Bool) (mp sp : Option ℕ) (r : Registry) : Registry :=
  if r.model = none then
    let lr := load_model mf sf mp sp r
    if lr.2 then { lr.1 with status := .completed }
    else { lr.1 with status := .notStarted }
  else r

/-- The response body of the manual-retrain endpoint
(`predict_controller.py` `trigger_training`). -/
structure TrainResponse where
  success : Bool
  message : String
  status : String
deriving DecidableEq, Repr

/-- `trigger_training` (predict_controller.py lines 54-96): read the status;
if it is `in_progress`, reply without scheduling anything; otherwise call
`SVMService.start_background_training()` and reply that training started.
The middle component counts the training runs actually scheduled. -/
def trigger_training (r : Registry) : Registry × ℕ × TrainResponse :=
  if r.status = .inProgress then
    (r, 0, ⟨false,
      "Model training is already in progress. Please wait for it to complete.",
      "in_progress"⟩)
  else
    let sr := start_background_training r
    (sr.1, sr.2, ⟨true,
      "Model training started in background with data augmentation. Use GET /api/predict/status to check progress.",
      "in_progress"⟩)

/-- The events that touch the training state machine: service construction
(`SVMService.__init__`), a training request
(`start_background_training`), and completion of a scheduled background run
with fit success or fit failure. -/
inductive TEvent where
  | initSvc (mf sf : Bool) (mp sp : Option ℕ)
  | requestTraining
  | runSuccess (mid sid : ℕ) (save : SaveOutcome)
  | runFailure
deriving DecidableEq, Repr

/-- Registry state plus the number of scheduled background runs that have not
finished yet. -/
structure Sys where
  reg : Registry
  pending : ℕ
deriving DecidableEq, Repr

/-- Process start: module-level `_training_status = "not_started"`,
`_model = _scaler = None`, no background thread running, nothing persisted
by this process yet. -/
def initialSys : Sys :=
  ⟨⟨.notStarted, none, none, none, none⟩, 0⟩

/-- One state-machine event.  A background run can only finish if one was
scheduled (`pending > 0`); the other events are always enabled. -/
def stepEvent (e : TEvent) (s : Sys) : Option Sys :=
  match e with
  | .initSvc mf sf mp sp => some { s with reg := init_service mf sf mp sp s.reg }
  | .requestTraining =>
    let sr := start_background_training s.reg
    some { reg := sr.1, pending := s.pending + sr.2 }
  | .runSuccess mid sid save =>
    if 0 < s.pending then
      some { reg := train_in_background mid sid true save s.reg,
             pending := s.pending - 1 }
    else none
  | .runFailure =>
    if 0 < s.pending then
      some { reg := train_in_background 0 0 false .success s.reg,
             pending := s.pending - 1 }
    else none

/-- Run a sequence of events from a state. -/
def runTrace (es : List TEvent) (s : Sys) : Option Sys :=
  match es with
  | [] => some s
  | e :: rest =>
    match stepEvent e s with
    | none => none
    | some s1 => runTrace rest s1

/-- A registry whose last training run failed, with empty model slots. -/
def regFailed : Registry := ⟨.failed, none, none, none, none⟩

/-- A registry with a trained, persisted model. -/
def regCompleted : Registry := ⟨.completed, some 1, some 2, some 1, some 2⟩

/-- A registry observed by the background thread while a run is in flight. -/
def regInProgress : Registry := ⟨.inProgress, none, none, none, none⟩

/-- A registry with a run in flight and an older artifact pair still
persisted on disk (reachable: a completed and saved run, then a failure that
reset the in-memory slots, then an explicit retrain). -/
def regInProgressPersisted : Registry := ⟨.inProgress, none, none, some 9, some 8⟩

/-! ## Image normalizer (`preprocessing.py`)

Images are rational-valued grayscale rasters, row major.  The PIL library
calls (`Image.resize` with LANCZOS resampling at steps 1 and 7, and
`ImageFilter.SMOOTH_MORE` at step 6) are external native code and enter the
embedding as the function parameters `R56`, `R28` and `S`; the facts the
proofs need about them (output dimensions, uint8 value range, constant in —
constant out) are stated as hypotheses of the theorems. -/

/-- A grayscale raster: rows of rational pixel intensities. -/
abbrev Img := List (List ℚ)

/-- Apply a pixel transform everywhere (numpy elementwise operation). -/
def mapGrid (f : ℚ → ℚ) (g : Img) : Img :=
  g.map (fun row => row.map f)

/-- An `h × w` raster with every pixel equal to `c`. -/
def constImg (h w : ℕ) (c : ℚ) : Img :=
  List.replicate h (List.replicate w c)

/-- Insert into an ascending-sorted list. -/
def insertSorted (x : ℚ) : List ℚ → List ℚ
  | [] => [x]
  | y :: ys => if x ≤ y then x :: y :: ys else y :: insertSorted x ys

/-- Ascending sort, as used by the linear-interpolation percentile. -/
def pySorted (l : List ℚ) : List ℚ :=
  l.foldr insertSorted []

/-- `np.percentile(l, q)` with the default linear interpolation:
`pos = q/100 * (n-1)`, interpolate between the two nearest order
statistics.  (`np.median` is the `q = 50` case.) -/
def percentile (l : List ℚ) (q : ℚ) : ℚ :=
  let s := pySorted l
  let n := s.length
  if n = 0 then 0
  else
    let pos : ℚ := q / 100 * ((n : ℚ) - 1)
    let i : ℕ := pos.floor.toNat
    let lo := s.getD i 0
    let hi := s.getD (min (i + 1) (n - 1)) 0
    lo + (hi - lo) * (pos - (i : ℚ))

/-- `np.mean` of a flattened array. -/
def mean (l : List ℚ) : ℚ := l.sum / (l.length : ℚ)

/-- `np.var`: mean of squared deviations.  `np.std l > t` (for `t ≥ 0`) is
expressed in the embedding as `variance l > t²`, which is equivalent and
stays inside the rationals. -/
def variance (l : List ℚ) : ℚ :=
  mean (l.map (fun x => (x - mean l) ^ 2))

/-- `np.clip(x, lo, hi)`. -/
def clip (x lo hi : ℚ) : ℚ := min (max x lo) hi

/-- `np.max` of a nonempty flattened array (`0` on the empty array, which the
pipeline never queries). -/
def maxList : List ℚ → ℚ
  | [] => 0
  | x :: xs => xs.foldl max x

/-- `np.min` of a nonempty flattened array. -/
def minList : List ℚ → ℚ
  | [] => 0
  | x :: xs => xs.foldl min x

/-- `np.array(img, dtype=np.float32).astype(np.uint8)` on one pixel:
truncate toward minus infinity and wrap into `0..255` (the pipeline only
applies it to values already in `[0, 255]`, where it is plain truncation). -/
def astypeUint8 (q : ℚ) : ℚ := ((q.floor % 256 : ℤ) : ℚ)

/-- Step 2 of `preprocess_image` (preprocessing.py lines 68-73):
percentile-based contrast stretching, skipped when the 2nd and 98th
percentiles coincide. -/
def contrastStretch (g : Img) : Img :=
  let f := g.flatten
  let p2 := percentile f 2
  let p98 := percentile f 98
  if p2 < p98 then
    mapGrid (fun x => clip ((x - p2) / (p98 - p2) * 255) 0 255) g
  else g

/-- Step 3 decision rule (preprocessing.py lines 75-103): invert when the
image is degenerate (no dark or no light pixels) and bright on average, when
dark pixels dominate (ratio above 0.6), or when both mean and median are
high. -/
def should_invert (g : Img) : Bool :=
  let f := g.flatten
  let meanBeforeInvert := mean f
  let medianValue := percentile f 50
  let darkPixels := f.countP (fun x => decide (x < 128))
  let lightPixels := f.countP (fun x => decide (128 ≤ x))
  if lightPixels = 0 ∨ darkPixels = 0 then decide (127.5 < meanBeforeInvert)
  else if (0.6 : ℚ) < (darkPixels : ℚ) / ((darkPixels : ℚ) + (lightPixels : ℚ))
    then true
  else decide (150 < meanBeforeInvert ∧ 140 < medianValue)

/-- Step 3 (preprocessing.py lines 105-110): `img_array = 255.0 - img_array`
when the decision rule fires. -/
def invertStep (g : Img) : Img :=
  if should_invert g then mapGrid (fun x => 255 - x) g else g

/-- Indices of the `true` entries (`np.where` on a boolean vector). -/
def idxTrue (l : List Bool) : List ℕ :=
  (l.enum.filter (fun p => p.2)).map (fun p => p.1)

/-- Step 4 (preprocessing.py lines 112-158): find the bounding box of pixels
darker than the 30th percentile, pad it, and re-paste the cropped region into
the center of a canvas filled with the 90th-percentile background color.
Skipped when no pixel is below the threshold. -/
def centerStep (g : Img) : Img :=
  let f := g.flatten
  let thr := percentile f 30
  if f.any (fun x => decide (x < thr)) then
    let h := g.length
    let w := (g.headD []).length
    let rowsAny := g.map (fun row => row.any (fun x => decide (x < thr)))
    let colsAny := (List.range w).map
      (fun j => g.any (fun row => decide (row.getD j 0 < thr)))
    if rowsAny.any id ∧ colsAny.any id then
      let rowIdx := idxTrue rowsAny
      let colIdx := idxTrue colsAny
      if rowIdx ≠ [] ∧ colIdx ≠ [] then
        let rmin0 := rowIdx.headD 0
        let rmax0 := rowIdx.getLastD 0
        let cmin0 := colIdx.headD 0
        let cmax0 := colIdx.getLastD 0
        let padding := max 3 (((min h w : ℚ) * 0.05).floor.toNat)
        let rmin := rmin0 - padding
        let rmax := min h (rmax0 + padding)
        let cmin := cmin0 - padding
        let cmax := min w (cmax0 + padding)
        let digitRegion := ((g.drop rmin).take (rmax - rmin)).map
          (fun row => (row.drop cmin).take (cmax - cmin))
        let bg := percentile f 90
        let newH := digitRegion.length
        let newW := (digitRegion.headD []).length
        let startR := (h - newH) / 2
        let startC := (w - newW) / 2
        let endR := min (startR + newH) h
        let endC := min (startC + newW) w
        (List.range h).map (fun i => (List.range w).map (fun j =>
          if startR ≤ i ∧ i < endR ∧ startC ≤ j ∧ j < endC then
            (digitRegion.getD (i - startR) []).getD (j - startC) 0
          else bg))
      else g
    else g
  else g

/-- The mask of step 5, `x < threshold - 0.2 * std`, expressed without a
square root: for `x < threshold` it is `(threshold - x)² > 0.04 * variance`,
otherwise false (the right-hand side is nonnegative). -/
def below_gentle_threshold (x threshold var : ℚ) : Bool :=
  if threshold ≤ x then false else decide (0.04 * var < (threshold - x) ^ 2)

/-- Step 5 (preprocessing.py lines 160-172): when the standard deviation
exceeds 15 (variance above 225), darken masked pixels by 0.75 and lighten the
rest by 1.05, clipping to `[0, 255]`. -/
def gentleContrast (g : Img) : Img :=
  let f := g.flatten
  let threshold := mean f
  let var := variance f
  if 225 < var then
    mapGrid (fun x =>
      if below_gentle_threshold x threshold var then clip (x * 0.75) 0 255
      else clip (x * 1.05) 0 255) g
  else g

/-- Steps 1-7 composed (preprocessing.py lines 59-182): intermediate resize
(`R56`), contrast stretch, polarity normalization, centering, gentle
contrast, uint8 round-trip through the smoothing filter `S`, uint8
round-trip through the final resize `R28`. -/
def stage7 (R56 S R28 : Img → Img) (g0 : Img) : Img :=
  R28 (mapGrid astypeUint8
    (S (mapGrid astypeUint8
      (gentleContrast (centerStep (invertStep (contrastStretch (R56 g0))))))))

/-- A numpy array: its shape tuple and flattened contents. -/
structure NdArray where
  shape : List ℕ
  data : List ℚ
deriving DecidableEq, Repr

/-- preprocessing.py line 186. -/
def emptyArrayError : PyError :=
  ⟨"ValueError", "Image array is empty after conversion"⟩

/-- preprocessing.py line 225. -/
def constantValueError : PyError :=
  ⟨"ValueError",
    "Preprocessed image has constant pixel values. Please upload an image with visible content."⟩

/-- preprocessing.py line 228. -/
def blankImageError : PyError :=
  ⟨"ValueError",
    "Preprocessed image is blank. Please upload a valid image with visible content."⟩

/-- Raised by `img_array.reshape(1, 784)` when the array does not hold
exactly 784 values. -/
def reshapeError : PyError :=
  ⟨"ValueError", "cannot reshape array into shape (1, 784)"⟩

/-- Step 8 (preprocessing.py lines 188-192): divide by 255 unless the
maximum is 0. -/
def normalizeStep (g : Img) : Img :=
  if 0 < maxList g.flatten then mapGrid (fun x => x / 255) g else g

/-- Step 9 (preprocessing.py lines 194-209): bounded multiplicative mean
correction — rescale toward mean 0.15 when brighter than 0.4, toward mean
0.1 when darker than 0.05, then clip to `[0, 1]`. -/
def meanAdjust (g : Img) : Img :=
  let currentMean := mean g.flatten
  if 0.4 < currentMean then
    let scaleFactor := if 0 < currentMean then 0.15 / currentMean else 1
    mapGrid (fun x => clip (x * scaleFactor) 0 1) g
  else if currentMean < 0.05 then
    let scaleFactor := if 0 < currentMean then 0.1 / currentMean else 1
    mapGrid (fun x => clip (x * scaleFactor) 0 1) g
  else g

/-- The final feature vector of the pipeline: steps 8 and 9 applied to the
output of stage 7, flattened by the `(1, 784)` reshape. -/
def finalVector (R56 S R28 : Img → Img) (g0 : Img) : List ℚ :=
  (meanAdjust (normalizeStep (stage7 R56 S R28 g0))).flatten

/-- Steps 1-10 of `preprocess_image` after decoding (preprocessing.py lines
59-233): the staged pipeline, the emptiness check, normalization, mean
adjustment, the reshape to `(1, 784)`, and the final degenerate-image
validation. -/
def preprocessCore (R56 S R28 : Img → Img) (g0 : Img) :
    Except PyError NdArray :=
  if (stage7 R56 S R28 g0).flatten.length = 0 then .error emptyArrayError
  else if (finalVector R56 S R28 g0).length ≠ 784 then .error reshapeError
  else if maxList (finalVector R56 S R28 g0) =
      minList (finalVector R56 S R28 g0) then .error constantValueError
  else if (finalVector R56 S R28 g0).countP (fun x => decide (x ≠ 0)) = 0 then
    .error blankImageError
  else .ok ⟨[1, 784], finalVector R56 S R28 g0⟩

/-- A Python `try/except Exception` block that re-raises every exception as
a `ValueError` with a fixed message prefix. -/
def wrapValueError (pre : String) : Except PyError α → Except PyError α
  | .ok v => .ok v
  | .error e => .error ⟨"ValueError", pre ++ e.msg⟩

/-- `preprocess_image` (preprocessing.py lines 15-237): reject zero-length
byte strings, decode (`dec` stands for `PIL.Image.open` plus the grayscale
conversion; a decode failure is whatever exception PIL raised), run the
pipeline, and re-wrap any exception from the body into
`ValueError("Failed to preprocess image: ...")`. -/
def preprocess_image (dec : List ℕ → Except PyError Img)
    (R56 S R28 : Img → Img) (imageBytes : List ℕ) : Except PyError NdArray :=
  wrapValueError "Failed to preprocess image: "
    (if imageBytes.length = 0 then
      .error ⟨"ValueError", "Image file is empty"⟩
    else
      match dec imageBytes with
      | .error e => .error e
      | .ok g0 => preprocessCore R56 S R28 g0)

/-! ## Inference (`svm_service.py predict`, `ml_inference_service.py`,
`image_service.py`, `predict_service.py`) -/

/-- The fitted sklearn objects used by `SVMService.predict`:
`_scaler.transform` (on the single row of the `(1, 784)` array),
`_model.predict` (first entry of the returned label vector), and
`_model.predict_proba` (first row of the returned matrix).  They are
external native code and enter the embedding as parameters. -/
structure SvmFns where
  transform : List ℚ → List ℚ
  predictCls : List ℚ → ℤ
  predictProba : List ℚ → List ℚ

/-- Python `str()` of a shape tuple, e.g. `(1, 784)` or `(784,)`. -/
def fmtShape (s : List ℕ) : String :=
  "(" ++ String.intercalate ", " (s.map toString) ++
    (if s.length = 1 then ",)" else ")")

/-- `image_array.reshape(1, -1)` applied when the input is 1-D, as in
svm_service.py lines 399-401; otherwise the array is left as is. -/
def reshapeIfFlat (a : NdArray) : NdArray :=
  if a.shape.length = 1 then { shape := [1, a.data.length], data := a.data }
  else a

/-- The body of the `try` block of `SVMService.predict` (svm_service.py
lines 389-432): reshape 1-D input to one row, reject 2-D input whose second
dimension is not 784, validate the final shape is exactly `(1, 784)`, then
scale and classify. -/
def svm_predict_checked (fns : SvmFns) (a : NdArray) :
    Except PyError (ℤ × ℚ × List ℚ) :=
  if a.shape.length ≠ 1 ∧ a.shape.getD 1 0 ≠ 784 then
    .error ⟨"ValueError",
      "Expected image array of shape (1, 784), got " ++ fmtShape a.shape⟩
  else if (reshapeIfFlat a).shape ≠ [1, 784] then
    .error ⟨"ValueError",
      "Image array must have shape (1, 784), got " ++
        fmtShape (reshapeIfFlat a).shape⟩
  else
    .ok (fns.predictCls (fns.transform (reshapeIfFlat a).data),
      (fns.predictProba (fns.transform (reshapeIfFlat a).data)).getD
        (fns.predictCls (fns.transform (reshapeIfFlat a).data)).toNat 0,
      fns.predictProba (fns.transform (reshapeIfFlat a).data))

/-- `SVMService.predict` (svm_service.py lines 352-436): readiness checks on
the training status and the cached model, then the checked prediction, with
every exception from the `try` body re-wrapped into
`ValueError("Prediction failed: ...")`. -/
def svm_predict (r : Registry) (fns : SvmFns) (a : NdArray) :
    Except PyError (ℤ × ℚ × List ℚ) :=
  if r.status = .inProgress then
    .error ⟨"ValueError",
      "Model is currently training. Please wait for training to complete."⟩
  else if r.status = .failed then
    .error ⟨"ValueError", "Model training failed. Please retry or check logs."⟩
  else if r.model = none ∨ r.scaler = none then
    if r.status = .notStarted then
      .error ⟨"ValueError", "Model training has not started. Please wait."⟩
    else .error ⟨"ValueError", "SVM model or scaler not initialized."⟩
  else
    wrapValueError "Prediction failed: " (svm_predict_checked fns a)

/-- A Python value appearing in the tuple returned by
`ml_inference_service.predict_digit`; the alternatives list holds
`(digit, confidence)` pairs standing for the source's small dicts. -/
inductive PyVal where
  | pyInt (n : ℤ)
  | pyRat (q : ℚ)
  | pyAlts (l : List (ℤ × ℚ))
deriving DecidableEq, Repr

/-- Stable insertion for the descending-by-probability sort: an element is
placed before every earlier-processed element with probability not above
its own. -/
def insertByProb (x : ℤ × ℚ) : List (ℤ × ℚ) → List (ℤ × ℚ)
  | [] => [x]
  | y :: ys => if y.2 ≤ x.2 then x :: y :: ys else y :: insertByProb x ys

/-- The top-3 block of `predict_digit` (ml_inference_service.py lines
44-53): pair each probability with its index, stable-sort by probability
descending, keep the first three. -/
def topAlternatives (probs : List ℚ) : List (ℤ × ℚ) :=
  let withIdx := probs.enum.map (fun p => ((p.1 : ℤ), p.2))
  let sorted := withIdx.foldr insertByProb []
  sorted.take 3

/-- `predict_digit` (ml_inference_service.py lines 13-72): reject `None`
input, dispatch on the model type (only "svm", or `None`, is supported), run
`SVMService().predict`, build the three-element result tuple
`(predicted_digit, confidence, alternatives)`; any exception is re-wrapped
into `ValueError("Prediction failed: ...")`. -/
def predict_digit (r : Registry) (fns : SvmFns) (imageArray : Option NdArray)
    (modelType : Option String) : Except PyError (List PyVal) :=
  wrapValueError "Prediction failed: "
    (match imageArray with
    | none => .error ⟨"ValueError", "Image array cannot be None"⟩
    | some a =>
      if modelType = some "svm" ∨ modelType = none then
        match svm_predict r fns a with
        | .error e => .error e
        | .ok (d, conf, probs) =>
          .ok [PyVal.pyInt d, PyVal.pyRat conf,
            PyVal.pyAlts (topAlternatives probs)]
      else
        .error ⟨"ValueError",
          "Model type not supported. Only svm is currently available."⟩)

/-- `file.content_type and file.content_type.startswith("image/")`. -/
def content_type_is_image (ct : Option String) : Bool :=
  match ct with
  | none => false
  | some s => List.isPrefixOf "image/".data s.data

/-- `process_uploaded_image` (image_service.py lines 12-60): reject empty
files, files over 5MB, and non-image content types, then preprocess.  (The
returned original filename is dropped here; no claim mentions it.) -/
def process_uploaded_image (dec : List ℕ → Except PyError Img)
    (R56 S R28 : Img → Img) (contents : List ℕ) (contentType : Option String) :
    Except PyError NdArray :=
  if contents.length = 0 then
    .error ⟨"ValueError", "File is empty. Please upload a valid image file."⟩
  else if 5 * 1024 * 1024 < contents.length then
    .error ⟨"ValueError", "File size exceeds maximum allowed size of 5MB"⟩
  else if ¬ content_type_is_image contentType then
    .error ⟨"ValueError", "File must be an image (PNG, JPG, JPEG)"⟩
  else preprocess_image dec R56 S R28 contents

/-- Python tuple unpacking `a, b = t`: succeeds exactly on a two-element
tuple, otherwise raises `ValueError`. -/
def unpack2 (t : List PyVal) : Except PyError (PyVal × PyVal) :=
  match t with
  | [a, b] => .ok (a, b)
  | l =>
    .error ⟨"ValueError",
      if 2 < l.length then "too many values to unpack (expected 2)"
      else "not enough values to unpack (expected 2)"⟩

/-- Python `round` to an integer: round half to even. -/
def roundHalfEven (q : ℚ) : ℤ :=
  let f := q.floor
  if q - (f : ℚ) < 1 / 2 then f
  else if (1 : ℚ) / 2 < q - (f : ℚ) then f + 1
  else if f % 2 = 0 then f else f + 1

/-- `round(x, 2)`. -/
def round2 (q : ℚ) : ℚ := ((roundHalfEven (q * 100) : ℤ) : ℚ) / 100

/-- Coerce the tuple component bound to `predicted_digit`. -/
def pyValToInt : PyVal → ℤ
  | .pyInt n => n
  | _ => 0

/-- Coerce the tuple component bound to `confidence`. -/
def pyValToRat : PyVal → ℚ
  | .pyRat q => q
  | _ => 0

/-- The result dict of `PredictService.predict_image`:
`{"digit": ..., "confidence": round(confidence * 100, 2),
"processing_time_ms": ...}`. -/
structure PredOut where
  digit : ℤ
  confidence : ℚ
  processing_time_ms : ℕ
deriving DecidableEq, Repr

/-- `PredictService.predict_image` (predict_service.py lines 19-97): process
the uploaded image, then execute
`predicted_digit, confidence = predict_digit(preprocessed_image, model_type)`
— a two-name unpacking of the three-element tuple returned by
`predict_digit` — and build the result dict.  The `except` block re-raises
unchanged.  `elapsedMs` stands for the wall-clock measurement. -/
def predict_image (r : Registry) (fns : SvmFns)
    (dec : List ℕ → Except PyError Img) (R56 S R28 : Img → Img)
    (contents : List ℕ) (contentType : Option String) (elapsedMs : ℕ) :
    Except PyError PredOut :=
  match process_uploaded_image dec R56 S R28 contents contentType with
  | .error e => .error e
  | .ok pre =>
    match predict_digit r fns (some pre) (some "svm") with
    | .error e => .error e
    | .ok t =>
      match unpack2 t with
      | .error e => .error e
      | .ok (dv, cv) =>
        .ok { digit := pyValToInt dv,
              confidence := round2 (pyValToRat cv * 100),
              processing_time_ms := elapsedMs }

/-! ## Concrete instances used by the witnesses -/

/-- A decoder producing a fixed one-pixel raster. -/
def decW : List ℕ → Except PyError Img := fun _ => .ok [[0]]

/-- A stand-in intermediate resize returning a fixed `1 × 2` raster (the
theorems never assume the resize targets are really met, so witnesses may
use small rasters to keep evaluation cheap). -/
def resize56W : Img → Img := fun _ => [[0, 255]]

/-- A stand-in smoothing filter. -/
def smoothW : Img → Img := fun g => g

/-- A `28 × 28` raster whose first pixel is 255 and whose other pixels are
0. -/
def grid28W : Img :=
  (255 :: List.replicate 27 (0 : ℚ)) :: List.replicate 27 (List.replicate 28 (0 : ℚ))

/-- A stand-in final resize returning `grid28W`, so its outputs lie in the
uint8 range `[0, 255]`. -/
def resize28W : Img → Img := fun _ => grid28W

/-- The feature vector `preprocess_image` produces from the witness
instances: the 255 pixel normalizes to 1, the mean `1/784` is below 0.05, so
the brightening branch scales by `0.1/(1/784)` and clips back to 1. -/
def vecW : List ℚ := 1 :: List.replicate 783 0

/-- Stand-in fitted scaler and classifier. -/
def fnsW : SvmFns :=
  { transform := fun v => v
    predictCls := fun _ => 7
    predictProba := fun _ => List.replicate 10 (1 / 10 : ℚ) }

/-- Constant-image stand-ins for the three PIL operations, used by the C8
witness. -/
def resize56C : Img → Img := fun _ => constImg 56 56 255

/-- Constant-image stand-in for the final resize. -/
def resize28C : Img → Img := fun _ => constImg 28 28 0

end DigitOCR

namespace DigitOCR

/-- Claim C2 counterexample: a training run whose fit succeeds but whose
persistence fails (here: the exception strikes during the scaler dump)
still ends with status `completed` — the save error is swallowed inside
`_save_model` — so the run was not treated as failed; moreover the
non-atomic truncating writes leave the disk in a mixed state, the fresh
model pickle next to a truncated (unreadable) scaler file. -/
theorem c2_persist_failure_counterexample :
    (train_in_background 1 2 true .failDuringScalerDump
        regInProgressPersisted).status = TrainingStatus.completed ∧
    (train_in_background 1 2 true .failDuringScalerDump
        regInProgressPersisted).diskModel = some 1 ∧
    (train_in_background 1 2 true .failDuringScalerDump
        regInProgressPersisted).diskScaler = none ∧
    TrainingStatus.completed ≠ TrainingStatus.failed := by
  decide

/-- Claim C2 (amended): a training run whose fit succeeds always advances
the status to `completed`, wherever (if anywhere) persistence failed — the
save error is swallowed inside `_save_model` and the fresh in-memory model
stays installed.  The two pickle writes are non-atomic truncating writes,
so the failure point determines the on-disk state: nothing touched (failure
before the model file is opened), a truncated/corrupt model file with the
stale scaler (failure during the model dump), a fresh model file with the
stale scaler (failure opening the scaler file), or a fresh model file with
a truncated/corrupt scaler (failure during the scaler dump). -/
theorem c2_fit_success_always_completed (r : Registry) (mid sid : ℕ)
    (save : SaveOutcome) :
    (train_in_background mid sid true save r).status =
      TrainingStatus.completed ∧
    (train_in_background mid sid true save r).model = some mid ∧
    (train_in_background mid sid true save r).scaler = some sid ∧
    (save = .failBeforeModel →
      (train_in_background mid sid true save r).diskModel = r.diskModel ∧
      (train_in_background mid sid true save r).diskScaler = r.diskScaler) ∧
    (save = .failDuringModelDump →
      (train_in_background mid sid true save r).diskModel = none ∧
      (train_in_background mid sid true save r).diskScaler = r.diskScaler) ∧
    (save = .failOpeningScaler →
      (train_in_background mid sid true save r).diskModel = some mid ∧
      (train_in_background mid sid true save r).diskScaler = r.diskScaler) ∧
    (save = .failDuringScalerDump →
      (train_in_background mid sid true save r).diskModel = some mid ∧
      (train_in_background mid sid true save r).diskScaler = none) := by
  cases save <;> simp [train_in_background, train_model, save_model]

/-- Witness for `c2_fit_success_always_completed` at a concrete registry,
with the exception striking during the scaler dump. -/
theorem c2_fit_success_always_completed_witness :
    (SaveOutcome.failDuringScalerDump = SaveOutcome.failDuringScalerDump) ∧
    ((train_in_background 1 2 true .failDuringScalerDump
        regInProgressPersisted).status = TrainingStatus.completed ∧
      (train_in_background 1 2 true .failDuringScalerDump
        regInProgressPersisted).model = some 1 ∧
      (train_in_background 1 2 true .failDuringScalerDump
        regInProgressPersisted).diskModel = some 1 ∧
      (train_in_background 1 2 true .failDuringScalerDump
        regInProgressPersisted).diskScaler = none) :=
  ⟨rfl,
    (c2_fit_success_always_completed regInProgressPersisted 1 2
      .failDuringScalerDump).1,
    (c2_fit_success_always_completed regInProgressPersisted 1 2
      .failDuringScalerDump).2.1,
    ((c2_fit_success_always_completed regInProgressPersisted 1 2
      .failDuringScalerDump).2.2.2.2.2.2 rfl).1,
    ((c2_fit_success_always_completed regInProgressPersisted 1 2
      .failDuringScalerDump).2.2.2.2.2.2 rfl).2⟩

/-- Claim C3 counterexample: both files exist, the model pickle loads but the
scaler pickle is corrupt — `_load_model` returns `False`, yet the freshly
deserialized model remains installed in the `_model` slot (it was `None`
before the call). -/
theorem c3_partial_load_counterexample :
    (load_model true true (some 5) none
        ⟨.notStarted, none, none, some 5, some 6⟩).2 = false ∧
    (load_model true true (some 5) none
        ⟨.notStarted, none, none, some 5, some 6⟩).1.model = some 5 ∧
    (⟨.notStarted, none, none, some 5, some 6⟩ : Registry).model = none := by
  decide

/-- Claim C3 (amended): every failing invocation of `_load_model` returns
`false` without raising (the embedding is a total function because the
Python code catches every exception), and leaves the training status, the
scaler slot, and the persisted files unchanged; the model slot is also
unchanged except in the one partial-load case — both files exist, the model
pickle deserializes, and the scaler pickle is corrupt — where the freshly
deserialized model remains installed. -/
theorem c3_load_failure_leaves_state (mf sf : Bool) (mp sp : Option ℕ)
    (r : Registry) (hfail : (load_model mf sf mp sp r).2 = false) :
    (load_model mf sf mp sp r).1.status = r.status ∧
    (load_model mf sf mp sp r).1.scaler = r.scaler ∧
    (load_model mf sf mp sp r).1.diskModel = r.diskModel ∧
    (load_model mf sf mp sp r).1.diskScaler = r.diskScaler ∧
    ((load_model mf sf mp sp r).1.model = r.model ∨
      (mf = true ∧ sf = true ∧ sp = none ∧
        ∃ m, mp = some m ∧ (load_model mf sf mp sp r).1.model = some m)) := by
  by_cases hms : mf ∧ sf
  · cases mp with
    | none => simp [load_model, hms]
    | some m =>
      cases sp with
      | none =>
        refine ⟨?_, ?_, ?_, ?_, Or.inr ⟨hms.1, hms.2, rfl, m, rfl, ?_⟩⟩ <;>
          simp [load_model, hms]
      | some s => simp [load_model, hms] at hfail
  · simp [load_model, hms]

/-- Witness for `c3_load_failure_leaves_state`: missing model file. -/
theorem c3_load_failure_leaves_state_witness :
    ((load_model false false none none regFailed).2 = false) ∧
    ((load_model false false none none regFailed).1.status = regFailed.status ∧
      (load_model false false none none regFailed).1.scaler = regFailed.scaler ∧
      (load_model false false none none regFailed).1.diskModel =
        regFailed.diskModel ∧
      (load_model false false none none regFailed).1.diskScaler =
        regFailed.diskScaler ∧
      ((load_model false false none none regFailed).1.model = regFailed.model ∨
        (false = true ∧ false = true ∧ (none : Option ℕ) = none ∧
          ∃ m, (none : Option ℕ) = some m ∧
            (load_model false false none none regFailed).1.model = some m))) :=
  ⟨by decide, c3_load_failure_leaves_state false false none none regFailed (by decide)⟩

/-- Claim C4 (code bug): an explicit retrain request while the status is
`completed` leaves the status `completed` and schedules no training run —
`start_background_training` returns early on `completed` — even though the
endpoint replies `success = true` with `status = "in_progress"`; from
`failed` the same request does transition to `in_progress` and schedules
exactly one run, as the claim says. -/
theorem c4_retrain_completed_is_noop :
    trigger_training regCompleted =
      (regCompleted, 0, ⟨true,
        "Model training started in background with data augmentation. Use GET /api/predict/status to check progress.",
        "in_progress"⟩) ∧
    regCompleted.status = TrainingStatus.completed ∧
    (trigger_training regFailed).1.status = TrainingStatus.inProgress ∧
    (trigger_training regFailed).2.1 = 1 := by
  decide

/-- Claim C5 counterexample: from process start (status `not_started`), a
single `SVMService()` construction that successfully loads the persisted
model moves the status directly to `completed` without ever passing through
`in_progress`; the same happens from `failed` after a failed run, since the
failure path resets `_model` to `None` and the next construction reloads
from disk. -/
theorem c5_direct_completion_counterexample :
    runTrace [TEvent.initSvc true true (some 1) (some 2)] initialSys =
      some ⟨⟨.completed, some 1, some 2, none, none⟩, 0⟩ ∧
    initialSys.reg.status = TrainingStatus.notStarted ∧
    TrainingStatus.notStarted ≠ TrainingStatus.inProgress ∧
    runTrace [TEvent.requestTraining, TEvent.runFailure,
        TEvent.initSvc true true (some 1) (some 2)] initialSys =
      some ⟨⟨.completed, some 1, some 2, none, none⟩, 0⟩ ∧
    runTrace [TEvent.requestTraining, TEvent.runFailure] initialSys =
      some ⟨⟨.failed, none, none, none, none⟩, 0⟩ := by
  decide

/-- Claim C5 (amended): a step can newly set the status to `completed` only
in two ways — completion of a scheduled background run whose fit succeeded,
or a service construction whose persisted-model load succeeded (both files
present and both pickles valid, with the in-memory model slot empty); the
latter moves the state to `completed` directly from `not_started` or
`failed`. -/
theorem c5_completion_sources (e : TEvent) (s s' : Sys)
    (hstep : stepEvent e s = some s')
    (hc : s'.reg.status = TrainingStatus.completed)
    (hnc : s.reg.status ≠ TrainingStatus.completed) :
    (∃ mid sid saveOk, e = TEvent.runSuccess mid sid saveOk ∧ 0 < s.pending) ∨
    (∃ mf sf mp sp, e = TEvent.initSvc mf sf mp sp ∧ mf = true ∧ sf = true ∧
      mp ≠ none ∧ sp ≠ none ∧ s.reg.model = none) := by
  cases e with
  | initSvc mf sf mp sp =>
    refine Or.inr ⟨mf, sf, mp, sp, rfl, ?_⟩
    simp only [stepEvent, Option.some.injEq] at hstep
    subst hstep
    simp only [init_service] at hc
    by_cases hm : s.reg.model = none
    · simp only [hm, if_true] at hc
      by_cases hok : (load_model mf sf mp sp s.reg).2
      · refine ⟨?_, ?_, ?_, ?_, hm⟩ <;>
          · by_cases hmf : mf ∧ sf
            · rcases hmf with ⟨h1, h2⟩
              first
                | exact h1
                | exact h2
                | (cases mp with
                    | none => simp [load_model, h1, h2] at hok
                    | some m =>
                      cases sp with
                      | none => simp [load_model, h1, h2] at hok
                      | some sId => simp)
            · simp [load_model, hmf] at hok
      · simp only [hok, if_false] at hc
        exact absurd hc (by simp)
    · simp only [hm, if_false] at hc
      exact absurd hc hnc
  | requestTraining =>
    exfalso
    simp only [stepEvent, Option.some.injEq] at hstep
    subst hstep
    simp only [start_background_training] at hc
    by_cases h1 : s.reg.status = TrainingStatus.inProgress
    · simp only [h1, if_true] at hc
      exact absurd hc (by simp)
    · by_cases h2 : s.reg.status = TrainingStatus.completed
      · exact hnc h2
      · simp only [h1, h2, if_false] at hc
        exact absurd hc (by simp)
  | runSuccess mid sid saveOk =>
    left
    refine ⟨mid, sid, saveOk, rfl, ?_⟩
    simp only [stepEvent] at hstep
    by_cases hp : 0 < s.pending
    · exact hp
    · simp [hp] at hstep
  | runFailure =>
    exfalso
    simp only [stepEvent] at hstep
    by_cases hp : 0 < s.pending
    · simp only [hp, if_true, Option.some.injEq] at hstep
      subst hstep
      simp [train_in_background, train_model] at hc
    · simp [hp] at hstep

/-- Witness for `c5_completion_sources`: a successful background run. -/
theorem c5_completion_sources_witness :
    (stepEvent (TEvent.runSuccess 1 2 .success) ⟨regInProgress, 1⟩ =
      some ⟨⟨.completed, some 1, some 2, some 1, some 2⟩, 0⟩) ∧
    ((∃ mid sid save,
        TEvent.runSuccess 1 2 .success = TEvent.runSuccess mid sid save ∧
        0 < (⟨regInProgress, 1⟩ : Sys).pending) ∨
      (∃ mf sf mp sp,
        TEvent.runSuccess 1 2 .success = TEvent.initSvc mf sf mp sp ∧
        mf = true ∧ sf = true ∧ mp ≠ none ∧ sp ≠ none ∧
        (⟨regInProgress, 1⟩ : Sys).reg.model = none)) :=
  ⟨by decide,
    c5_completion_sources (TEvent.runSuccess 1 2 .success) ⟨regInProgress, 1⟩
      ⟨⟨.completed, some 1, some 2, some 1, some 2⟩, 0⟩
      (by decide) (by decide) (by decide)⟩

/-- Claim C6: `start_background_training` is a no-op (state unchanged, zero
runs scheduled) when the status is `in_progress` or `completed`; from
`not_started` or `failed` it moves the status to `in_progress` and schedules
exactly one background run; hence two consecutive requests starting from
`not_started` schedule exactly one run in total. -/
theorem c6_request_training_semantics (r : Registry) :
    ((r.status = TrainingStatus.inProgress ∨
        r.status = TrainingStatus.completed) →
      start_background_training r = (r, 0)) ∧
    ((r.status = TrainingStatus.notStarted ∨
        r.status = TrainingStatus.failed) →
      (start_background_training r).1.status = TrainingStatus.inProgress ∧
      (start_background_training r).2 = 1) ∧
    (r.status = TrainingStatus.notStarted →
      (start_background_training r).2 +
        (start_background_training (start_background_training r).1).2 = 1) := by
  refine ⟨?_, ?_, ?_⟩
  · rintro (h | h) <;> simp [start_background_training, h]
  · rintro (h | h) <;> simp [start_background_training, h]
  · intro h
    simp [start_background_training, h]

/-- Witness for `c6_request_training_semantics` at status `not_started`. -/
theorem c6_request_training_semantics_witness :
    (initialSys.reg.status = TrainingStatus.notStarted ∨
      initialSys.reg.status = TrainingStatus.failed) ∧
    ((start_background_training initialSys.reg).1.status =
        TrainingStatus.inProgress ∧
      (start_background_training initialSys.reg).2 = 1) :=
  ⟨Or.inl rfl,
    (c6_request_training_semantics initialSys.reg).2.1 (Or.inl rfl)⟩

/-! ## Shape contract of `SVMService.predict` (claims C7, C10, C1) -/

/-- The `try` body of `SVMService.predict` rejects every 1-D input whose
length is not 784 and every 2-D input whose shape is not exactly `(1, 784)`
with a `ValueError`. -/
theorem svm_predict_checked_rejects (fns : SvmFns) (a : NdArray)
    (hwf : a.data.length = a.shape.prod)
    (hbad : (a.shape.length = 1 ∧ a.shape ≠ [784]) ∨
      (a.shape.length = 2 ∧ a.shape ≠ [1, 784])) :
    ∃ m, svm_predict_checked fns a = .error ⟨"ValueError", m⟩ := by
  obtain ⟨sh, da⟩ := a
  simp only at hwf hbad
  rcases hbad with ⟨h1, hne⟩ | ⟨h2, hne⟩
  · rcases List.length_eq_one.mp h1 with ⟨n, rfl⟩
    have hn784 : n ≠ 784 := fun hcon => hne (by rw [hcon])
    have hdata : da.length = n := by simpa using hwf
    refine ⟨"Image array must have shape (1, 784), got " ++
      fmtShape (reshapeIfFlat ⟨[n], da⟩).shape, ?_⟩
    unfold svm_predict_checked
    rw [if_neg (by simp), if_pos (by simp [reshapeIfFlat, hdata, hn784])]
  · obtain ⟨p, q, rfl⟩ : ∃ p q, sh = [p, q] := by
      rcases sh with _ | ⟨p, _ | ⟨q, _ | ⟨x, rest⟩⟩⟩ <;> simp at h2
      exact ⟨p, q, rfl⟩
    by_cases hq : q = 784
    · subst hq
      have hp : p ≠ 1 := fun hcon => hne (by rw [hcon])
      refine ⟨"Image array must have shape (1, 784), got " ++
        fmtShape (reshapeIfFlat ⟨[p, 784], da⟩).shape, ?_⟩
      unfold svm_predict_checked
      rw [if_neg (by simp), if_pos (by simp [reshapeIfFlat, hp])]
    · refine ⟨"Expected image array of shape (1, 784), got " ++
        fmtShape [p, q], ?_⟩
      unfold svm_predict_checked
      rw [if_pos (by simp [hq])]

/-- Claim C7: with a ready model (status `completed`, model and scaler
installed), inference on an array whose total length is not 784 — a 1-D
vector of any other length, or a 2-D array of any shape other than
`(1, 784)` — raises a `ValueError`; the data is never truncated, padded, or
reshaped into an accepted 784-vector. -/
theorem c7_wrong_length_raises_shape_error (r : Registry) (fns : SvmFns)
    (a : NdArray) (hst : r.status = TrainingStatus.completed)
    (hm : r.model ≠ none) (hs : r.scaler ≠ none)
    (hwf : a.data.length = a.shape.prod)
    (hbad : (a.shape.length = 1 ∧ a.shape ≠ [784]) ∨
      (a.shape.length = 2 ∧ a.shape ≠ [1, 784])) :
    ∃ e, svm_predict r fns a = .error e ∧ e.typ = "ValueError" := by
  rcases svm_predict_checked_rejects fns a hwf hbad with ⟨m, hm'⟩
  refine ⟨⟨"ValueError", "Prediction failed: " ++ m⟩, ?_, rfl⟩
  simp [svm_predict, hst, hm, hs, hm', wrapValueError]

/-- Witness for `c7_wrong_length_raises_shape_error`: a 1-D vector of
length 2. -/
theorem c7_wrong_length_raises_shape_error_witness :
    (regCompleted.status = TrainingStatus.completed ∧
      regCompleted.model ≠ none ∧ regCompleted.scaler ≠ none ∧
      (NdArray.mk [2] [5, 6]).data.length = (NdArray.mk [2] [5, 6]).shape.prod) ∧
    ∃ e, svm_predict regCompleted fnsW ⟨[2], [5, 6]⟩ = .error e ∧
      e.typ = "ValueError" :=
  ⟨⟨rfl, by decide, by decide, rfl⟩,
    c7_wrong_length_raises_shape_error regCompleted fnsW ⟨[2], [5, 6]⟩ rfl
      (by decide) (by decide) rfl (Or.inl ⟨rfl, by decide⟩)⟩

/-- Claim C10: every failure of the image normalizer is surfaced as a
`ValueError` whose message is the internal message prefixed with
"Failed to preprocess image: "; every failure of `SVMService.predict`
(training in progress, training failed, model not ready, shape mismatch,
in-body exception) is a `ValueError`; and every failure of `predict_digit`
is a `ValueError` prefixed with "Prediction failed: " — so callers can tell
the error categories apart only by message string, never by exception
type. -/
theorem c10_every_failure_is_value_error :
    (∀ dec R56 S R28 bytes e,
      preprocess_image dec R56 S R28 bytes = .error e →
      e.typ = "ValueError" ∧
        ∃ s, e.msg = "Failed to preprocess image: " ++ s) ∧
    (∀ r fns a e, svm_predict r fns a = .error e → e.typ = "ValueError") ∧
    (∀ r fns ia mt e, predict_digit r fns ia mt = .error e →
      e.typ = "ValueError" ∧ ∃ s, e.msg = "Prediction failed: " ++ s) := by
  have hwrap : ∀ (α : Type) (pre : String) (x : Except PyError α) (e : PyError),
      wrapValueError pre x = .error e →
      e.typ = "ValueError" ∧ ∃ s, e.msg = pre ++ s := by
    intro α pre x e h
    cases x with
    | ok v => exact absurd h (by simp [wrapValueError])
    | error e' =>
      obtain rfl : (⟨"ValueError", pre ++ e'.msg⟩ : PyError) = e :=
        Except.error.inj h
      exact ⟨rfl, e'.msg, rfl⟩
  refine ⟨?_, ?_, ?_⟩
  · intro dec R56 S R28 bytes e h
    exact hwrap _ _ _ e h
  · intro r fns a e h
    unfold svm_predict at h
    split at h
    · exact (Except.error.inj h) ▸ rfl
    · split at h
      · exact (Except.error.inj h) ▸ rfl
      · split at h
        · split at h
          · exact (Except.error.inj h) ▸ rfl
          · exact (Except.error.inj h) ▸ rfl
        · exact (hwrap _ _ _ e h).1
  · intro r fns ia mt e h
    exact hwrap _ _ _ e h

/-- Witness for `c10_every_failure_is_value_error`: the empty upload, a
prediction attempted mid-training, and a `None` input array. -/
theorem c10_every_failure_is_value_error_witness :
    ((⟨"ValueError",
        "Failed to preprocess image: Image file is empty"⟩ : PyError).typ =
      "ValueError" ∧
      ∃ s, (⟨"ValueError",
        "Failed to preprocess image: Image file is empty"⟩ : PyError).msg =
        "Failed to preprocess image: " ++ s) ∧
    (⟨"ValueError",
      "Model is currently training. Please wait for training to complete."⟩ :
        PyError).typ = "ValueError" ∧
    ((⟨"ValueError",
        "Prediction failed: Image array cannot be None"⟩ : PyError).typ =
      "ValueError" ∧
      ∃ s, (⟨"ValueError",
        "Prediction failed: Image array cannot be None"⟩ : PyError).msg =
        "Prediction failed: " ++ s) :=
  ⟨c10_every_failure_is_value_error.1 decW resize56W smoothW resize28W [] _ rfl,
    c10_every_failure_is_value_error.2.1 regInProgress fnsW ⟨[1, 784], []⟩ _ rfl,
    c10_every_failure_is_value_error.2.2 regCompleted fnsW none (some "svm") _
      rfl⟩

/-! ## Evaluating the witness pipeline symbolically

Rational arithmetic does not reduce definitionally at the default
transparency, so the concrete runs used by the witnesses are computed with
small rewriting lemmas about `List.replicate` instead of brute evaluation. -/

/-- Flattening a constant raster. -/
theorem flatten_replicate_replicate (h w : ℕ) (c : ℚ) :
    (List.replicate h (List.replicate w c)).flatten = List.replicate (h * w) c := by
  induction h with
  | zero => simp
  | succ k ih =>
    simp only [List.replicate_succ, List.flatten_cons, ih]
    rw [Nat.succ_mul, Nat.add_comm, ← List.replicate_add]

/-- Folding `max` over copies of a value not larger than the seed. -/
theorem foldl_max_replicate (n : ℕ) (b c : ℚ) (h : c ≤ b) :
    List.foldl max b (List.replicate n c) = b := by
  induction n with
  | zero => rfl
  | succ k ih => simp only [List.replicate_succ, List.foldl_cons,
      max_eq_left h, ih]

/-- Folding `min` over at least one copy of a value not larger than the
seed. -/
theorem foldl_min_replicate_succ (n : ℕ) (b c : ℚ) (h : c ≤ b) :
    List.foldl min b (List.replicate (n + 1) c) = c := by
  induction n generalizing b with
  | zero => simp [min_eq_right h]
  | succ k ih =>
    rw [List.replicate_succ, List.foldl_cons, min_eq_right h]
    exact ih c le_rfl

/-- Counting matches in a constant list. -/
theorem countP_replicate (p : ℚ → Bool) (n : ℕ) (c : ℚ) :
    (List.replicate n c).countP p = if p c then n else 0 := by
  induction n with
  | zero => simp
  | succ k ih =>
    simp only [List.replicate_succ, List.countP_cons, ih]
    by_cases h : p c <;> simp [h]

/-- Unfolding `maxList` on a nonempty list. -/
theorem maxList_cons (x : ℚ) (xs : List ℚ) :
    maxList (x :: xs) = xs.foldl max x := rfl

/-- Unfolding `minList` on a nonempty list. -/
theorem minList_cons (x : ℚ) (xs : List ℚ) :
    minList (x :: xs) = xs.foldl min x := rfl

/-- The flattened witness raster. -/
theorem grid28W_flatten :
    grid28W.flatten = (255 : ℚ) :: List.replicate 783 0 := by
  have h : grid28W = ((255 : ℚ) :: List.replicate 27 0) ::
      List.replicate 27 (List.replicate 28 (0 : ℚ)) := rfl
  rw [h, List.flatten_cons, flatten_replicate_replicate, List.cons_append,
    ← List.replicate_add]

/-- `maxList` of the flattened witness raster. -/
theorem maxList_flat255 :
    maxList ((255 : ℚ) :: List.replicate 783 0) = 255 := by
  rw [maxList_cons]
  exact foldl_max_replicate 783 255 0 (by norm_num)

/-- `maxList` of the witness vector. -/
theorem maxList_vecW : maxList vecW = 1 := by
  unfold vecW
  rw [maxList_cons]
  exact foldl_max_replicate 783 1 0 (by norm_num)

/-- `minList` of the witness vector. -/
theorem minList_vecW : minList vecW = 0 := by
  unfold vecW
  rw [minList_cons]
  exact foldl_min_replicate_succ 782 1 0 (by norm_num)

/-- `mean` of the witness vector. -/
theorem mean_vecW : mean vecW = 1 / 784 := by
  unfold mean vecW
  rw [List.sum_cons, List.sum_replicate, List.length_cons,
    List.length_replicate, smul_zero]
  norm_num

/-- The normalization of step 8 divides the witness raster by 255. -/
theorem normalizeStep_grid28W :
    normalizeStep grid28W =
      ((1 : ℚ) :: List.replicate 27 0) ::
        List.replicate 27 (List.replicate 28 (0 : ℚ)) := by
  unfold normalizeStep
  rw [grid28W_flatten, maxList_flat255]
  have h255 : ((255 : ℚ) / 255) = 1 := by norm_num
  have h0 : ((0 : ℚ) / 255) = 0 := by norm_num
  rw [if_pos (by norm_num : (0 : ℚ) < 255)]
  unfold mapGrid grid28W
  simp only [List.map_cons, List.map_replicate, h255, h0]

/-- The flattening of the normalized witness raster is `vecW`. -/
theorem flatten_normalized_grid28W :
    (((1 : ℚ) :: List.replicate 27 0) ::
      List.replicate 27 (List.replicate 28 (0 : ℚ))).flatten = vecW := by
  rw [List.flatten_cons, flatten_replicate_replicate, List.cons_append,
    ← List.replicate_add]
  rfl

/-- Step 9 on the normalized witness raster: the mean `1/784` is below 0.05,
so the brightening branch multiplies by `0.1 / (1/784)` and clips back into
`[0, 1]`, reproducing the same raster. -/
theorem meanAdjust_grid28W :
    meanAdjust (((1 : ℚ) :: List.replicate 27 0) ::
        List.replicate 27 (List.replicate 28 (0 : ℚ))) =
      ((1 : ℚ) :: List.replicate 27 0) ::
        List.replicate 27 (List.replicate 28 (0 : ℚ)) := by
  simp only [meanAdjust]
  rw [flatten_normalized_grid28W, mean_vecW]
  rw [if_neg (by norm_num), if_pos (by norm_num), if_pos (by norm_num)]
  have h1 : clip (1 * ((0.1 : ℚ) / (1 / 784))) 0 1 = 1 := by
    unfold clip; norm_num
  have h0 : clip (0 * ((0.1 : ℚ) / (1 / 784))) 0 1 = 0 := by
    unfold clip; norm_num
  unfold mapGrid
  simp only [List.map_cons, List.map_replicate, h1, h0]

/-- The witness run produces exactly `vecW`. -/
theorem finalVectorW :
    finalVector resize56W smoothW resize28W [[0]] = vecW := by
  unfold finalVector
  rw [show stage7 resize56W smoothW resize28W [[0]] = grid28W from rfl,
    normalizeStep_grid28W, meanAdjust_grid28W, flatten_normalized_grid28W]

/-- The length of the witness vector. -/
theorem vecW_length : vecW.length = 784 := by
  unfold vecW
  rw [List.length_cons, List.length_replicate]

/-- The full witness run of the image normalizer. -/
theorem preprocessW_eval :
    preprocess_image decW resize56W smoothW resize28W [1] =
      .ok ⟨[1, 784], vecW⟩ := by
  have hcore : preprocessCore resize56W smoothW resize28W [[0]] =
      .ok ⟨[1, 784], vecW⟩ := by
    unfold preprocessCore
    rw [show stage7 resize56W smoothW resize28W [[0]] = grid28W from rfl,
      grid28W_flatten, finalVectorW, vecW_length, maxList_vecW, minList_vecW]
    have hcount : vecW.countP (fun x => decide (x ≠ 0)) = 1 := by
      unfold vecW
      rw [List.countP_cons, countP_replicate]
      norm_num
    rw [if_neg (by rw [List.length_cons, List.length_replicate]; norm_num),
      if_neg (by norm_num), if_neg (by norm_num),
      if_neg (by rw [hcount]; norm_num)]
  unfold preprocess_image
  rw [if_neg (by simp : ¬ (([1] : List ℕ).length = 0))]
  show wrapValueError "Failed to preprocess image: "
    (preprocessCore resize56W smoothW resize28W [[0]]) = .ok ⟨[1, 784], vecW⟩
  rw [hcore]
  rfl

/-- The full witness run of `process_uploaded_image`. -/
theorem processW_eval :
    process_uploaded_image decW resize56W smoothW resize28W [1]
      (some "image/png") = .ok ⟨[1, 784], vecW⟩ := by
  unfold process_uploaded_image
  rw [if_neg (by simp), if_neg (by norm_num),
    if_neg (by simp [content_type_is_image])]
  exact preprocessW_eval

/-! ## Constant rasters through the pipeline (claim C8) -/

/-- Flattening a constant raster, stated for `constImg`. -/
theorem flatten_constImg (h w : ℕ) (c : ℚ) :
    (constImg h w c).flatten = List.replicate (h * w) c :=
  flatten_replicate_replicate h w c

/-- `mapGrid` on a constant raster. -/
theorem mapGrid_constImg (f : ℚ → ℚ) (h w : ℕ) (c : ℚ) :
    mapGrid f (constImg h w c) = constImg h w (f c) := by
  unfold mapGrid constImg
  rw [List.map_replicate, List.map_replicate]

/-- Inserting the common value into a constant sorted list. -/
theorem insertSorted_replicate (n : ℕ) (c : ℚ) :
    insertSorted c (List.replicate n c) = List.replicate (n + 1) c := by
  cases n with
  | zero => rfl
  | succ k =>
    rw [List.replicate_succ, insertSorted, if_pos le_rfl,
      ← List.replicate_succ, ← List.replicate_succ]

/-- Sorting a constant list. -/
theorem pySorted_replicate (n : ℕ) (c : ℚ) :
    pySorted (List.replicate n c) = List.replicate n c := by
  induction n with
  | zero => rfl
  | succ k ih =>
    have hstep : pySorted (List.replicate (k + 1) c) =
        insertSorted c (pySorted (List.replicate k c)) := by
      rw [List.replicate_succ]
      rfl
    rw [hstep, ih, insertSorted_replicate]

/-- Reading any in-range position of a constant list. -/
theorem getD_replicate (n i : ℕ) (c d : ℚ) (hi : i < n) :
    (List.replicate n c).getD i d = c := by
  induction n generalizing i with
  | zero => omega
  | succ k ih =>
    rw [List.replicate_succ]
    cases i with
    | zero => rfl
    | succ j =>
      show (List.replicate k c).getD j d = c
      exact ih j (by omega)

/-- The linear-interpolation percentile of a constant sample is the
constant, for any percentage not above 100. -/
theorem percentile_replicate (n : ℕ) (c q : ℚ) (hn : n ≠ 0) (hq : q ≤ 100) :
    percentile (List.replicate n c) q = c := by
  simp only [percentile]
  rw [pySorted_replicate, List.length_replicate, if_neg hn]
  have hn1 : (1 : ℚ) ≤ (n : ℚ) := by
    have : (1 : ℕ) ≤ n := Nat.one_le_iff_ne_zero.mpr hn
    exact_mod_cast this
  have hpos_le : q / 100 * ((n : ℚ) - 1) ≤ (n : ℚ) - 1 := by
    have h1 : q / 100 ≤ 1 := by
      rw [div_le_one (by norm_num : (0 : ℚ) < 100)]
      exact hq.trans (by norm_num)
    have h2 : (0 : ℚ) ≤ (n : ℚ) - 1 := by linarith
    calc q / 100 * ((n : ℚ) - 1) ≤ 1 * ((n : ℚ) - 1) :=
          mul_le_mul_of_nonneg_right h1 h2
      _ = (n : ℚ) - 1 := one_mul _
  have hfloor : (q / 100 * ((n : ℚ) - 1)).floor ≤ (n : ℤ) - 1 := by
    have hbridge : (q / 100 * ((n : ℚ) - 1)).floor =
        ⌊q / 100 * ((n : ℚ) - 1)⌋ := rfl
    have h2 : ⌊q / 100 * ((n : ℚ) - 1)⌋ ≤ ⌊(n : ℚ) - 1⌋ :=
      Int.floor_mono hpos_le
    have h3 : ⌊(n : ℚ) - 1⌋ = (n : ℤ) - 1 := by
      rw [show ((n : ℚ) - 1) = (((n : ℤ) - 1 : ℤ) : ℚ) by push_cast; ring,
        Int.floor_intCast]
    omega
  have hi : (q / 100 * ((n : ℚ) - 1)).floor.toNat < n := by omega
  have hi2 : min ((q / 100 * ((n : ℚ) - 1)).floor.toNat + 1) (n - 1) < n := by
    have := Nat.min_le_right
      ((q / 100 * ((n : ℚ) - 1)).floor.toNat + 1) (n - 1)
    omega
  rw [getD_replicate _ _ _ _ hi, getD_replicate _ _ _ _ hi2]
  ring

/-- `percentile` of the empty sample. -/
theorem percentile_nil (q : ℚ) : percentile [] q = 0 := rfl

/-- `mean` of a constant nonempty sample. -/
theorem mean_replicate (n : ℕ) (c : ℚ) (hn : n ≠ 0) :
    mean (List.replicate n c) = c := by
  unfold mean
  rw [List.sum_replicate, List.length_replicate, nsmul_eq_mul]
  exact mul_div_cancel_left₀ c (Nat.cast_ne_zero.mpr hn)

/-- `mean` of the empty sample (`0 / 0 = 0` in the rationals). -/
theorem mean_nil : mean ([] : List ℚ) = 0 := by
  unfold mean
  simp

/-- `variance` of a constant sample. -/
theorem variance_replicate (n : ℕ) (c : ℚ) :
    variance (List.replicate n c) = 0 := by
  cases Nat.eq_zero_or_pos n with
  | inl h0 =>
    subst h0
    show variance [] = 0
    unfold variance
    rw [List.map_nil, mean_nil]
  | inr hpos =>
    have hn : n ≠ 0 := Nat.pos_iff_ne_zero.mp hpos
    unfold variance
    rw [List.map_replicate, mean_replicate n c hn, sub_self,
      zero_pow (by norm_num : 2 ≠ 0), mean_replicate n 0 hn]

/-- `maxList` of a constant nonempty sample. -/
theorem maxList_replicate (n : ℕ) (c : ℚ) (hn : n ≠ 0) :
    maxList (List.replicate n c) = c := by
  cases n with
  | zero => omega
  | succ k =>
    rw [List.replicate_succ, maxList_cons]
    exact foldl_max_replicate k c c le_rfl

/-- `minList` of a constant nonempty sample. -/
theorem minList_replicate (n : ℕ) (c : ℚ) (hn : n ≠ 0) :
    minList (List.replicate n c) = c := by
  cases n with
  | zero => omega
  | succ k =>
    rw [List.replicate_succ, minList_cons]
    cases k with
    | zero => rfl
    | succ j => exact foldl_min_replicate_succ j c c le_rfl

/-- `List.any` over a constant list with a failing predicate. -/
theorem any_replicate_false (p : ℚ → Bool) (n : ℕ) (c : ℚ)
    (hp : p c = false) : (List.replicate n c).any p = false := by
  induction n with
  | zero => rfl
  | succ k ih => rw [List.replicate_succ, List.any_cons, hp, ih]; rfl

/-- Step 2 is the identity on constant rasters: the 2nd and 98th percentile
coincide, so the stretch is skipped. -/
theorem contrastStretch_const (h w : ℕ) (c : ℚ) :
    contrastStretch (constImg h w c) = constImg h w c := by
  simp only [contrastStretch]
  rw [flatten_constImg]
  by_cases h0 : h * w = 0
  · rw [h0]
    show (if percentile [] 2 < percentile [] 98 then _ else _) = _
    rw [percentile_nil, percentile_nil, if_neg (lt_irrefl 0)]
  · rw [percentile_replicate _ _ _ h0 (by norm_num),
      percentile_replicate _ _ _ h0 (by norm_num), if_neg (lt_irrefl c)]

/-- Step 3 maps constant rasters to constant rasters (the decision rule may
fire, in which case every pixel becomes `255 - c`). -/
theorem invertStep_const (h w : ℕ) (c : ℚ) :
    ∃ c2, invertStep (constImg h w c) = constImg h w c2 := by
  unfold invertStep
  by_cases hinv : should_invert (constImg h w c) = true
  · exact ⟨255 - c, by rw [if_pos hinv, mapGrid_constImg]⟩
  · exact ⟨c, by rw [if_neg hinv]⟩

/-- Step 4 is the identity on constant rasters: no pixel is strictly below
the 30th percentile, so the centering is skipped. -/
theorem centerStep_const (h w : ℕ) (c : ℚ) :
    centerStep (constImg h w c) = constImg h w c := by
  simp only [centerStep]
  rw [flatten_constImg]
  by_cases h0 : h * w = 0
  · rw [h0]
    show (if ([] : List ℚ).any _ then _ else _) = _
    rw [if_neg (by simp)]
  · rw [percentile_replicate _ _ _ h0 (by norm_num)]
    rw [if_neg (by rw [any_replicate_false _ _ _ (by simp)]; simp)]

/-- Step 5 is the identity on constant rasters: the variance is zero, so
the gentle contrast enhancement is skipped. -/
theorem gentleContrast_const (h w : ℕ) (c : ℚ) :
    gentleContrast (constImg h w c) = constImg h w c := by
  simp only [gentleContrast]
  rw [flatten_constImg, variance_replicate]
  rw [if_neg (by norm_num)]

/-- Steps 1-7 map a raster that the intermediate resize turns constant to a
constant `28 × 28` raster, given that the smoothing filter and the final
resize preserve constancy (true of any normalized convolution / resampling
kernel). -/
theorem stage7_const (R56 S R28 : Img → Img) (g0 : Img)
    (hR56 : ∃ c1, R56 g0 = constImg 56 56 c1)
    (hS : ∀ c2, ∃ c3, S (constImg 56 56 c2) = constImg 56 56 c3)
    (hR28 : ∀ c4, ∃ c5, R28 (constImg 56 56 c4) = constImg 28 28 c5) :
    ∃ c7, stage7 R56 S R28 g0 = constImg 28 28 c7 := by
  obtain ⟨c1, h1⟩ := hR56
  unfold stage7
  rw [h1, contrastStretch_const]
  obtain ⟨c2, h2⟩ := invertStep_const 56 56 c1
  rw [h2, centerStep_const, gentleContrast_const, mapGrid_constImg]
  obtain ⟨c3, h3⟩ := hS (astypeUint8 c2)
  rw [h3, mapGrid_constImg]
  obtain ⟨c5, h5⟩ := hR28 (astypeUint8 c3)
  exact ⟨c5, h5⟩

/-- Step 8 maps constant rasters to constant rasters. -/
theorem normalizeStep_const (h w : ℕ) (c : ℚ) :
    ∃ c8, normalizeStep (constImg h w c) = constImg h w c8 := by
  unfold normalizeStep
  by_cases hb : 0 < maxList (constImg h w c).flatten
  · exact ⟨c / 255, by rw [if_pos hb, mapGrid_constImg]⟩
  · exact ⟨c, by rw [if_neg hb]⟩

/-- Step 9 maps constant rasters to constant rasters. -/
theorem meanAdjust_const (h w : ℕ) (c : ℚ) :
    ∃ c9, meanAdjust (constImg h w c) = constImg h w c9 := by
  simp only [meanAdjust]
  by_cases h1 : (0.4 : ℚ) < mean (constImg h w c).flatten
  · exact ⟨_, by rw [if_pos h1, mapGrid_constImg]⟩
  · by_cases h2 : mean (constImg h w c).flatten < 0.05
    · exact ⟨_, by rw [if_neg h1, if_pos h2, mapGrid_constImg]⟩
    · exact ⟨c, by rw [if_neg h1, if_neg h2]⟩

/-- Constant input rasters always run into the final constant-pixel
validation. -/
theorem preprocessCore_const (R56 S R28 : Img → Img) (g0 : Img)
    (hR56 : ∃ c1, R56 g0 = constImg 56 56 c1)
    (hS : ∀ c2, ∃ c3, S (constImg 56 56 c2) = constImg 56 56 c3)
    (hR28 : ∀ c4, ∃ c5, R28 (constImg 56 56 c4) = constImg 28 28 c5) :
    preprocessCore R56 S R28 g0 = .error constantValueError := by
  obtain ⟨c7, h7⟩ := stage7_const R56 S R28 g0 hR56 hS hR28
  unfold preprocessCore finalVector
  rw [h7]
  obtain ⟨c8, h8⟩ := normalizeStep_const 28 28 c7
  rw [h8]
  obtain ⟨c9, h9⟩ := meanAdjust_const 28 28 c8
  rw [h9, flatten_constImg, flatten_constImg]
  rw [if_neg (by rw [List.length_replicate]; norm_num),
    if_neg (by rw [List.length_replicate]; norm_num),
    if_pos (by rw [maxList_replicate _ _ (by norm_num),
      minList_replicate _ _ (by norm_num)])]

/-- Membership in the result of `List.foldl max`. -/
theorem foldl_max_mem (xs : List ℚ) (b : ℚ) :
    List.foldl max b xs = b ∨ List.foldl max b xs ∈ xs := by
  induction xs generalizing b with
  | nil => exact Or.inl rfl
  | cons y ys ih =>
    rw [List.foldl_cons]
    rcases ih (max b y) with h | h
    · rcases max_choice b y with hb | hy
      · exact Or.inl (by rw [h, hb])
      · exact Or.inr (by rw [h, hy]; exact List.mem_cons_self y ys)
    · exact Or.inr (List.mem_cons_of_mem y h)

/-- Membership in the result of `List.foldl min`. -/
theorem foldl_min_mem (xs : List ℚ) (b : ℚ) :
    List.foldl min b xs = b ∨ List.foldl min b xs ∈ xs := by
  induction xs generalizing b with
  | nil => exact Or.inl rfl
  | cons y ys ih =>
    rw [List.foldl_cons]
    rcases ih (min b y) with h | h
    · rcases min_choice b y with hb | hy
      · exact Or.inl (by rw [h, hb])
      · exact Or.inr (by rw [h, hy]; exact List.mem_cons_self y ys)
    · exact Or.inr (List.mem_cons_of_mem y h)

/-- `maxList` of a nonempty list is one of its elements. -/
theorem maxList_mem (l : List ℚ) (hl : l ≠ []) : maxList l ∈ l := by
  cases l with
  | nil => exact absurd rfl hl
  | cons x xs =>
    rw [maxList_cons]
    rcases foldl_max_mem xs x with h | h
    · rw [h]; exact List.mem_cons_self x xs
    · exact List.mem_cons_of_mem x h

/-- `minList` of a nonempty list is one of its elements. -/
theorem minList_mem (l : List ℚ) (hl : l ≠ []) : minList l ∈ l := by
  cases l with
  | nil => exact absurd rfl hl
  | cons x xs =>
    rw [minList_cons]
    rcases foldl_min_mem xs x with h | h
    · rw [h]; exact List.mem_cons_self x xs
    · exact List.mem_cons_of_mem x h

/-- Claim C8: the image normalizer raises the degenerate-image
`ValueError` on every constant-valued input image — in particular a blank
all-white image — and, more generally, never returns a vector whose entries
are all identical (all-zero vectors included): every successfully returned
vector contains two distinct values.  The hypotheses about `R56`, `S` and
`R28` record that PIL resampling and smoothing map constant rasters to
constant rasters of the requested size. -/
theorem c8_constant_image_degenerate :
    (∀ (dec : List ℕ → Except PyError Img) (R56 S R28 : Img → Img)
      (bytes : List ℕ) (h w : ℕ) (c : ℚ),
      bytes ≠ [] →
      dec bytes = .ok (constImg h w c) →
      (∃ c1, R56 (constImg h w c) = constImg 56 56 c1) →
      (∀ c2, ∃ c3, S (constImg 56 56 c2) = constImg 56 56 c3) →
      (∀ c4, ∃ c5, R28 (constImg 56 56 c4) = constImg 28 28 c5) →
      preprocess_image dec R56 S R28 bytes =
        .error ⟨"ValueError",
          "Failed to preprocess image: " ++ constantValueError.msg⟩) ∧
    (∀ dec R56 S R28 bytes arr,
      preprocess_image dec R56 S R28 bytes = .ok arr →
      ∃ x ∈ arr.data, ∃ y ∈ arr.data, x ≠ y) := by
  constructor
  · intro dec R56 S R28 bytes h w c hbytes hdec hR56 hS hR28
    have hcore := preprocessCore_const R56 S R28 (constImg h w c) hR56 hS hR28
    unfold preprocess_image
    rw [if_neg (fun hl => hbytes (List.length_eq_zero.mp hl)), hdec]
    show wrapValueError "Failed to preprocess image: "
      (preprocessCore R56 S R28 (constImg h w c)) = _
    rw [hcore]
    rfl
  · intro dec R56 S R28 bytes arr h
    unfold preprocess_image wrapValueError at h
    split at h
    · rename_i x v heq
      obtain rfl : v = arr := Except.ok.inj h
      split at heq
      · exact absurd heq (by simp)
      · split at heq
        · exact absurd heq (by simp)
        · rename_i g0 hg0
          unfold preprocessCore at heq
          split at heq
          · exact absurd heq (by simp)
          · split at heq
            · exact absurd heq (by simp)
            · rename_i hempty hlen
              split at heq
              · exact absurd heq (by simp)
              · rename_i hconst
                split at heq
                · exact absurd heq (by simp)
                · obtain rfl : (⟨[1, 784], finalVector R56 S R28 g0⟩ :
                      NdArray) = v := Except.ok.inj heq
                  have hne : finalVector R56 S R28 g0 ≠ [] := by
                    intro hc
                    rw [hc] at hlen
                    exact hlen (by norm_num)
                  exact ⟨maxList (finalVector R56 S R28 g0),
                    maxList_mem _ hne,
                    minList (finalVector R56 S R28 g0),
                    minList_mem _ hne, hconst⟩
    · exact absurd h (by simp)

/-- Witness for `c8_constant_image_degenerate`: the all-white image (every
pixel 255). -/
theorem c8_constant_image_degenerate_witness :
    (([1] : List ℕ) ≠ []) ∧
    preprocess_image (fun _ => .ok (constImg 1 1 255)) resize56C smoothW
        resize28C [1] =
      .error ⟨"ValueError",
        "Failed to preprocess image: " ++ constantValueError.msg⟩ :=
  ⟨by simp,
    c8_constant_image_degenerate.1 (fun _ => .ok (constImg 1 1 255)) resize56C
      smoothW resize28C [1] 1 1 255 (by simp) rfl ⟨255, rfl⟩
      (fun c2 => ⟨c2, rfl⟩) (fun c4 => ⟨0, rfl⟩)⟩

/-! ## Range of the returned feature vector (claim C9) -/

/-- Flattening commutes with the elementwise map. -/
theorem flatten_mapGrid (f : ℚ → ℚ) (g : Img) :
    (mapGrid f g).flatten = g.flatten.map f := by
  induction g with
  | nil => rfl
  | cons row rest ih =>
    unfold mapGrid at ih ⊢
    rw [List.map_cons, List.flatten_cons, List.flatten_cons, List.map_append,
      ih]

/-- Every element is bounded by `maxList`. -/
theorem le_maxList (l : List ℚ) (x : ℚ) (hx : x ∈ l) : x ≤ maxList l := by
  have haux : ∀ (xs : List ℚ) (b : ℚ),
      b ≤ List.foldl max b xs ∧ ∀ y ∈ xs, y ≤ List.foldl max b xs := by
    intro xs
    induction xs with
    | nil => exact fun b => ⟨le_rfl, by simp⟩
    | cons z zs ih =>
      intro b
      rw [List.foldl_cons]
      refine ⟨le_trans (le_max_left b z) (ih (max b z)).1, ?_⟩
      intro y hy
      rcases List.mem_cons.mp hy with rfl | hy2
      · exact le_trans (le_max_right b y) (ih (max b y)).1
      · exact (ih (max b z)).2 y hy2
  cases l with
  | nil => exact absurd hx (List.not_mem_nil x)
  | cons a as =>
    rw [maxList_cons]
    rcases List.mem_cons.mp hx with rfl | hx2
    · exact (haux as x).1
    · exact (haux as a).2 x hx2

/-- Clipping into `[0, 1]` lands in `[0, 1]`. -/
theorem clip01_mem (y : ℚ) : 0 ≤ clip y 0 1 ∧ clip y 0 1 ≤ 1 := by
  unfold clip
  constructor
  · exact le_min (le_max_right y 0) (by norm_num)
  · exact min_le_right _ _

/-- Step 8 produces values in `[0, 1]` from values in `[0, 255]`. -/
theorem normalizeStep_range (g : Img)
    (hg : ∀ x ∈ g.flatten, 0 ≤ x ∧ x ≤ 255) :
    ∀ x ∈ (normalizeStep g).flatten, 0 ≤ x ∧ x ≤ 1 := by
  unfold normalizeStep
  by_cases hb : 0 < maxList g.flatten
  · rw [if_pos hb, flatten_mapGrid]
    intro x hx
    obtain ⟨y, hy, rfl⟩ := List.mem_map.mp hx
    exact ⟨div_nonneg (hg y hy).1 (by norm_num),
      (div_le_one (by norm_num : (0 : ℚ) < 255)).mpr (hg y hy).2⟩
  · rw [if_neg hb]
    intro x hx
    have h0 : x ≤ 0 := le_trans (le_maxList g.flatten x hx) (not_lt.mp hb)
    have hx0 : x = 0 := le_antisymm h0 (hg x hx).1
    rw [hx0]
    norm_num

/-- Step 9 keeps values in `[0, 1]`. -/
theorem meanAdjust_range (g : Img) (hg : ∀ x ∈ g.flatten, 0 ≤ x ∧ x ≤ 1) :
    ∀ x ∈ (meanAdjust g).flatten, 0 ≤ x ∧ x ≤ 1 := by
  simp only [meanAdjust]
  by_cases h1 : (0.4 : ℚ) < mean g.flatten
  · rw [if_pos h1, flatten_mapGrid]
    intro x hx
    obtain ⟨y, _, rfl⟩ := List.mem_map.mp hx
    exact clip01_mem _
  · rw [if_neg h1]
    by_cases h2 : mean g.flatten < 0.05
    · rw [if_pos h2, flatten_mapGrid]
      intro x hx
      obtain ⟨y, _, rfl⟩ := List.mem_map.mp hx
      exact clip01_mem _
    · rw [if_neg h2]
      exact hg

/-- Claim C9: whenever the image normalizer returns successfully, the
returned array has shape `(1, 784)`, holds exactly `28 × 28` values, and
every value lies in the closed interval `[0, 1]` — also after the
conditional mean-rescaling of step 9, whose multiplicative corrections are
clipped back into `[0, 1]`.  The hypothesis on `R28` records that the final
PIL resize returns uint8 pixels, i.e. values in `[0, 255]`. -/
theorem c9_feature_vector_shape_and_range
    (dec : List ℕ → Except PyError Img) (R56 S R28 : Img → Img)
    (bytes : List ℕ) (arr : NdArray)
    (hR28 : ∀ g, ∀ x ∈ (R28 g).flatten, 0 ≤ x ∧ x ≤ 255)
    (hok : preprocess_image dec R56 S R28 bytes = .ok arr) :
    arr.shape = [1, 784] ∧ arr.data.length = 28 * 28 ∧
      ∀ x ∈ arr.data, 0 ≤ x ∧ x ≤ 1 := by
  unfold preprocess_image wrapValueError at hok
  split at hok
  · rename_i x v heq
    obtain rfl : v = arr := Except.ok.inj hok
    split at heq
    · exact absurd heq (by simp)
    · split at heq
      · exact absurd heq (by simp)
      · rename_i g0 hg0
        unfold preprocessCore at heq
        split at heq
        · exact absurd heq (by simp)
        · split at heq
          · exact absurd heq (by simp)
          · rename_i hempty hlen
            split at heq
            · exact absurd heq (by simp)
            · split at heq
              · exact absurd heq (by simp)
              · obtain rfl : (⟨[1, 784], finalVector R56 S R28 g0⟩ :
                    NdArray) = v := Except.ok.inj heq
                refine ⟨rfl, ?_, ?_⟩
                · show (finalVector R56 S R28 g0).length = 28 * 28
                  rw [not_ne_iff.mp hlen]
                have hstage : ∀ x ∈ (stage7 R56 S R28 g0).flatten,
                    0 ≤ x ∧ x ≤ 255 := by
                  intro x hx
                  exact hR28 _ x hx
                show ∀ x ∈ finalVector R56 S R28 g0, 0 ≤ x ∧ x ≤ 1
                unfold finalVector
                exact meanAdjust_range _ (normalizeStep_range _ hstage)
  · exact absurd hok (by simp)

/-- Witness for `c9_feature_vector_shape_and_range` at the concrete witness
pipeline. -/
theorem c9_feature_vector_shape_and_range_witness :
    (∀ g, ∀ x ∈ (resize28W g).flatten, 0 ≤ x ∧ x ≤ 255) ∧
    ((⟨[1, 784], vecW⟩ : NdArray).shape = [1, 784] ∧
      (⟨[1, 784], vecW⟩ : NdArray).data.length = 28 * 28 ∧
      ∀ x ∈ (⟨[1, 784], vecW⟩ : NdArray).data, 0 ≤ x ∧ x ≤ 1) := by
  have hrange : ∀ g, ∀ x ∈ (resize28W g).flatten, 0 ≤ x ∧ x ≤ 255 := by
    intro g x hx
    rw [show (resize28W g).flatten = grid28W.flatten from rfl,
      grid28W_flatten] at hx
    rcases List.mem_cons.mp hx with rfl | hx2
    · norm_num
    · rw [List.eq_of_mem_replicate hx2]
      norm_num
  exact ⟨hrange,
    c9_feature_vector_shape_and_range decW resize56W smoothW resize28W [1]
      ⟨[1, 784], vecW⟩ hrange preprocessW_eval⟩

/-! ## The end-to-end prediction call (claim C1) -/

/-- Every array the normalizer returns has shape `(1, 784)`. -/
theorem preprocess_ok_shape (dec : List ℕ → Except PyError Img)
    (R56 S R28 : Img → Img) (bytes : List ℕ) (arr : NdArray)
    (h : preprocess_image dec R56 S R28 bytes = .ok arr) :
    arr.shape = [1, 784] := by
  unfold preprocess_image wrapValueError at h
  split at h
  · rename_i x v heq
    obtain rfl : v = arr := Except.ok.inj h
    split at heq
    · exact absurd heq (by simp)
    · split at heq
      · exact absurd heq (by simp)
      · rename_i g0 hg0
        unfold preprocessCore at heq
        split at heq
        · exact absurd heq (by simp)
        · split at heq
          · exact absurd heq (by simp)
          · split at heq
            · exact absurd heq (by simp)
            · split at heq
              · exact absurd heq (by simp)
              · exact congrArg NdArray.shape (Except.ok.inj heq).symm
  · exact absurd h (by simp)

/-- Every array `process_uploaded_image` returns has shape `(1, 784)`. -/
theorem process_uploaded_ok_shape (dec : List ℕ → Except PyError Img)
    (R56 S R28 : Img → Img) (contents : List ℕ) (ct : Option String)
    (arr : NdArray)
    (h : process_uploaded_image dec R56 S R28 contents ct = .ok arr) :
    arr.shape = [1, 784] := by
  unfold process_uploaded_image at h
  split at h
  · exact absurd h (by simp)
  · split at h
    · exact absurd h (by simp)
    · split at h
      · exact absurd h (by simp)
      · exact preprocess_ok_shape dec R56 S R28 contents arr h

/-- Claim C1 (code bug): whenever the upload preprocesses successfully and
the model is ready (status `completed`, model and scaler installed) —
exactly the situation in which the claim promises a `PredictionResult` —
`predict_digit` returns its three-element tuple
`(predicted_digit, confidence, alternatives)`, the two-name unpacking in
`PredictService.predict_image` line 57 fails, and the call raises
`ValueError("too many values to unpack (expected 2)")` instead of
returning. -/
theorem c1_predict_image_always_raises (r : Registry) (fns : SvmFns)
    (dec : List ℕ → Except PyError Img) (R56 S R28 : Img → Img)
    (contents : List ℕ) (ct : Option String) (ms : ℕ) (pre : NdArray)
    (hok : process_uploaded_image dec R56 S R28 contents ct = .ok pre)
    (hst : r.status = TrainingStatus.completed)
    (hm : r.model ≠ none) (hs : r.scaler ≠ none) :
    predict_image r fns dec R56 S R28 contents ct ms =
      .error ⟨"ValueError", "too many values to unpack (expected 2)"⟩ := by
  have hshape : pre.shape = [1, 784] :=
    process_uploaded_ok_shape dec R56 S R28 contents ct pre hok
  have hchecked : svm_predict_checked fns pre =
      .ok (fns.predictCls (fns.transform pre.data),
        (fns.predictProba (fns.transform pre.data)).getD
          (fns.predictCls (fns.transform pre.data)).toNat 0,
        fns.predictProba (fns.transform pre.data)) := by
    simp [svm_predict_checked, reshapeIfFlat, hshape]
  have hsvm : svm_predict r fns pre =
      .ok (fns.predictCls (fns.transform pre.data),
        (fns.predictProba (fns.transform pre.data)).getD
          (fns.predictCls (fns.transform pre.data)).toNat 0,
        fns.predictProba (fns.transform pre.data)) := by
    simp [svm_predict, hst, hm, hs, hchecked, wrapValueError]
  simp [predict_image, hok, predict_digit, hsvm, unpack2, wrapValueError]

/-- Witness for `c1_predict_image_always_raises` at the concrete witness
pipeline. -/
theorem c1_predict_image_always_raises_witness :
    (process_uploaded_image decW resize56W smoothW resize28W [1]
        (some "image/png") = .ok ⟨[1, 784], vecW⟩ ∧
      regCompleted.status = TrainingStatus.completed ∧
      regCompleted.model ≠ none ∧ regCompleted.scaler ≠ none) ∧
    predict_image regCompleted fnsW decW resize56W smoothW resize28W [1]
        (some "image/png") 5 =
      .error ⟨"ValueError", "too many values to unpack (expected 2)"⟩ :=
  ⟨⟨processW_eval, rfl, by decide, by decide⟩,
    c1_predict_image_always_raises regCompleted fnsW decW resize56W smoothW
      resize28W [1] (some "image/png") 5 ⟨[1, 784], vecW⟩ processW_eval rfl
      (by decide) (by decide)⟩

end DigitOCR
